import Mathlib

/-!
Verification development for the dd-telemetry server (src/telemetryserver.js).

The JavaScript source is shallowly embedded: JS runtime values that flow
through the request handlers are modelled by the inductive type JsVal,
timestamps are integers (milliseconds since the UTC epoch, the value of
Date.now() and Date.prototype.valueOf()), a possibly-invalid Date is an
Option Int (none models an Invalid Date, i.e. a NaN time value), the
relational store is the state of the single per-client table a request
touches, and the in-memory session cache is an association list keyed by
session key.  Fallible external steps (pool.connect, queries, COMMIT) are
driven by explicit outcome flags so that every storage failure mode of the
source can be exercised.
-/

namespace DdTelemetry

/-- JavaScript runtime values as they appear in parsed JSON request bodies,
plus the two non-JSON values the handlers can meet: undefined (absent field)
and a function object (property access on a method without calling it).
JS numbers are modelled as integers (every claim concerns integer or
invalid numeric fields); the IEEE NaN value is the separate constructor nan. -/
inductive JsVal where
  | num (n : Int)
  | nan
  | str (s : String)
  | bool (b : Bool)
  | undefined
  | nullV
  | arr (xs : List JsVal)
  | obj (fields : List (String × JsVal))
  | fn
deriving Repr

/-- JS typeof operator on the modelled values. Note typeof null = "object". -/
def jsTypeof : JsVal → String
  | .num _ => "number"
  | .nan => "number"
  | .str _ => "string"
  | .bool _ => "boolean"
  | .undefined => "undefined"
  | .nullV => "object"
  | .arr _ => "object"
  | .obj _ => "object"
  | .fn => "function"

/-- Array.isArray. -/
def jsIsArray : JsVal → Bool
  | .arr _ => true
  | _ => false

/-- JS whitespace characters recognised by \s and String.prototype.trim
(the ASCII ones; exotic Unicode spaces are not modelled). -/
def jsIsWhitespaceChar (c : Char) : Bool :=
  c = ' ' || c = '\t' || c = '\n' || c = '\r' || c.toNat = 12 || c.toNat = 11

/-- String.prototype.trim on the character list of a string. -/
def jsTrimChars (cs : List Char) : List Char :=
  ((cs.dropWhile jsIsWhitespaceChar).reverse.dropWhile jsIsWhitespaceChar).reverse

/-- String.prototype.trim. -/
def jsTrim (s : String) : String :=
  String.mk (jsTrimChars s.toList)

/-- ToNumber coercion of a string produces NaN?  Models decimal integer
literals (optional sign); the empty or all-whitespace string coerces to 0,
hence is not NaN.  Fractional and hex literal forms are not modelled; no
theorem depends on this branch. -/
def jsNumericStrIsNaN (s : String) : Bool :=
  match jsTrimChars s.toList with
  | [] => false
  | c :: cs =>
    if c = '+' || c = '-' then !(cs ≠ [] && cs.all Char.isDigit)
    else !((c :: cs).all Char.isDigit)

/-- The JS global isNaN: ToNumber coercion followed by a NaN test.
The load-bearing case for this code base: a function object coerces to NaN
(its string form is not numeric), so isNaN(someFunction) is always true --
this is exactly what line 304/363's isNaN(time.valueOf) evaluates, since
time.valueOf is the uncalled Date method.  Array coercion goes through the
comma-joined string form; only the small shapes that could matter are spelt
out, the rest coerce to a non-numeric string. -/
def jsIsNaN : JsVal → Bool
  | .num _ => false
  | .nan => true
  | .str s => jsNumericStrIsNaN s
  | .bool _ => false
  | .nullV => false
  | .undefined => true
  | .arr [] => false
  | .arr [.num _] => false
  | .arr [.nullV] => false
  | .arr [.undefined] => false
  | .arr [.str s] => jsNumericStrIsNaN s
  | .arr _ => true
  | .obj _ => true
  | .fn => true

/-- Number.isInteger: true only for number values that are integers.
All modelled numbers are integers, NaN is not an integer. -/
def jsNumberIsInteger : JsVal → Bool
  | .num _ => true
  | _ => false

/-- Source isValidInteger: !isNaN(integer) && Number.isInteger(integer). -/
def isValidInteger (v : JsVal) : Bool :=
  !jsIsNaN v && jsNumberIsInteger v

/-- Source isValidString: defined, of string type, and truthy (non-empty). -/
def isValidString : JsVal → Bool
  | .str s => s ≠ ""
  | _ => false

/-- The string payload of a JsVal known to be a string (used only under an
isValidString guard, as in the source). -/
def strOf : JsVal → String
  | .str s => s
  | _ => ""

/-- The integer payload of a JsVal known to be an integer number (used only
under an isValidInteger guard, as in the source). -/
def numOf : JsVal → Int
  | .num n => n
  | _ => 0

/-- A JS Date value: some ms-since-epoch when valid, none for Invalid Date
(internal time value NaN). -/
abbrev JsDate := Option Int

/-- new Date(ms) for an integer argument: valid iff within the ECMAScript
time-value range of +-8.64e15 ms. -/
def jsNewDateOfInt (n : Int) : JsDate :=
  if n.natAbs ≤ 8640000000000000 then some n else none

/-- Source dateOrInvalid: builds a Date from an integer or string timecode,
otherwise an Invalid Date.  Date-string parsing is implementation-defined in
JS, so it is a parameter parseStr of the embedding. -/
def dateOrInvalid (parseStr : String → Option Int) (timecode : JsVal) : JsDate :=
  if isValidInteger timecode || isValidString timecode then
    match timecode with
    | .num n => jsNewDateOfInt n
    | .str s => parseStr s
    | _ => none
  else
    none

/-- The property access time.valueOf in the source (lines 304 and 363) reads
the inherited Date.prototype.valueOf method WITHOUT calling it, so its value
is a function object whatever the Date holds. -/
def dateValueOfProp (_time : JsDate) : JsVal :=
  JsVal.fn

/-- Source isValidIdentifier: non-empty and the first UTF-16 unit is a
lowercase ASCII letter (charCodeAt(0) between those of a and z). -/
def isValidIdentifier (text : String) : Bool :=
  match text.toList with
  | [] => false
  | c :: _ => 97 ≤ c.toNat && c.toNat ≤ 122

/-- Source textOrPlaceholder: a valid string is trimmed; a blank result or a
non-string input becomes the placeholder. -/
def textOrPlaceholder (v : JsVal) : String :=
  if isValidString v then
    match v with
    | .str s => let t := jsTrim s; if t = "" then "?" else t
    | _ => "?"
  else "?"

/-- String(x) as used by template literals in the diagnostic messages. -/
def jsValDisplay : JsVal → String
  | .num n => toString n
  | .nan => "NaN"
  | .str s => s
  | .bool b => if b then "true" else "false"
  | .undefined => "undefined"
  | .nullV => "null"
  | .arr _ => ""
  | .obj _ => "[object Object]"
  | .fn => "function"

/-- toLowerCase on one UTF-16 unit (ASCII case mapping; JS full Unicode
lowercasing agrees with it on all characters this system manipulates). -/
def jsCharToLower (c : Char) : Char :=
  if 65 ≤ c.toNat ∧ c.toNat ≤ 90 then Char.ofNat (c.toNat + 32) else c

/-- toUpperCase on one UTF-16 unit (ASCII case mapping). -/
def jsCharToUpper (c : Char) : Char :=
  if 97 ≤ c.toNat ∧ c.toNat ≤ 122 then Char.ofNat (c.toNat - 32) else c

/-- toUpperCase of a whole string. -/
def jsToUpper (s : String) : String :=
  String.mk (s.toList.map jsCharToUpper)

/-- The fixed punctuation set stripped by toTableName:
period, comma, apostrophe, semicolon, colon. -/
def strippedPunct (c : Char) : Bool :=
  c = '.' || c = ',' || c = Char.ofNat 39 || c = ';' || c = ':'

/-- Whitespace-or-hyphen class replaced with an underscore by toTableName. -/
def spaceOrHyphen (c : Char) : Bool :=
  jsIsWhitespaceChar c || c = '-'

/-- Source toTableName on the character list: lowercase, then replace every
whitespace/hyphen with an underscore, then strip the fixed punctuation set
(the three chained passes of line 134). -/
def toTableNameChars (cs : List Char) : List Char :=
  (((cs.map jsCharToLower).map
      (fun c => if spaceOrHyphen c then '_' else c)).filter
    (fun c => !strippedPunct c))

/-- Source toTableName: sanitize a string for use as a SQL table name. -/
def toTableName (name : String) : String :=
  String.mk (toTableNameChars name.toList)

/-- Source authenticate: compare process.env at the uppercased key
"user_" + name against the supplied secret; an absent variable is undefined
and never strictly equal to a string. -/
def authenticate (env : String → Option String) (userName userSecret : String) : Bool :=
  match env (jsToUpper ("user_" ++ userName)) with
  | some v => v = userSecret
  | none => false

/-- One row of a per-client storage table (the fixed schema of createTable);
the persisted data column holds the JSON value produced by JSON.stringify. -/
structure Row where
  session : Int
  version : String
  sectionName : String
  eventType : String
  time : JsDate
  data : JsVal
deriving Repr

/-- Source recordEntry's row construction: a falsy (empty) section is stored
as the literal Default. -/
def recordEntryRow (session : Int) (version sectionName eventType : String)
    (time : JsDate) (data : JsVal) : Row :=
  { session := session, version := version,
    sectionName := if sectionName = "" then "Default" else sectionName,
    eventType := eventType, time := time, data := data }

/-- The state of the one storage table a request addresses:
none when the table does not exist, some rows when it does. -/
abbrev TableState := Option (List Row)

/-- SQL MAX(session): NULL (none) over an empty table, otherwise the
greatest session value. -/
def sqlMaxSession : List Row → Option Int
  | [] => none
  | r :: rs =>
    match sqlMaxSession rs with
    | none => some r.session
    | some m => some (max r.session m)

/-- Success/failure of each fallible external step of tryBeginSession.
connectOk is pool.connect(); the rest are the queries issued inside the
transaction, in source order. -/
structure StepOutcomes where
  connectOk : Bool := true
  tableCheckOk : Bool := true
  createOk : Bool := true
  maxOk : Bool := true
  insertOk : Bool := true
  commitOk : Bool := true
deriving Repr, DecidableEq

/-- What tryBeginSession's promise settles to: a returned AuthResult
(sessionId, message), or an escaped exception. -/
inductive BeginOutcome where
  | result (sessionId : Int) (message : String)
  | thrown (message : String)
deriving Repr, DecidableEq

/-- The diagnostic message built in tryBeginSession's catch block. -/
def sessionStartErrMsg (sanitizedName stack : String) : String :=
  "Error during session start for " ++ sanitizedName ++ ": " ++ stack

/-- Source tryBeginSession.  The transaction (BEGIN .. COMMIT) is modelled by
applying its writes to the durable table state only on a successful COMMIT:
a failure at any query aborts the transaction, so the working changes are
discarded and the durable state is returned unchanged.  If pool.connect()
itself fails, the catch block prepares an error result but the finally
block evaluates client.release() on an undefined client, so a TypeError
escapes instead (modelled by BeginOutcome.thrown). -/
def tryBeginSession (env : String → Option String)
    (sanitizedName userSecret version sectionName : String)
    (time : JsDate) (setupId : String)
    (db : TableState) (oc : StepOutcomes) : BeginOutcome × TableState :=
  if !authenticate env sanitizedName userSecret then
    (.result (-1) ("Failed to authenticate. Please double check that you " ++
      "spelled your user name and secret key correctly."), db)
  else if !oc.connectOk then
    (.thrown "TypeError: Cannot read properties of undefined (reading release)", db)
  else if !oc.tableCheckOk then
    (.result (-1) (sessionStartErrMsg sanitizedName "table existence check failed"), db)
  else
    match db with
    | none =>
      -- Found no table: sessionId stays 0, create the table from scratch.
      if !oc.createOk then
        (.result (-1) (sessionStartErrMsg sanitizedName "CREATE TABLE failed"), db)
      else if !oc.insertOk then
        (.result (-1) (sessionStartErrMsg sanitizedName "INSERT failed"), db)
      else if !oc.commitOk then
        (.result (-1) (sessionStartErrMsg sanitizedName "COMMIT failed"), db)
      else
        (.result 0 ("Successfully authenticated and created new database table for "
            ++ sanitizedName ++ ". Starting with session #0."),
         some [recordEntryRow 0 version sectionName "SessionStart" time
                (JsVal.obj [("setup", JsVal.str setupId)])])
    | some rows =>
      -- Table exists: take MAX(session) when it is a non-NULL integer
      -- (isValidInteger(null) is false, so an empty table keeps 0),
      -- then post-increment.
      if !oc.maxOk then
        (.result (-1) (sessionStartErrMsg sanitizedName "MAX(session) query failed"), db)
      else
        let sessionId : Int :=
          (match sqlMaxSession rows with
           | some m => m
           | none => 0) + 1
        if !oc.insertOk then
          (.result (-1) (sessionStartErrMsg sanitizedName "INSERT failed"), db)
        else if !oc.commitOk then
          (.result (-1) (sessionStartErrMsg sanitizedName "COMMIT failed"), db)
        else
          (.result sessionId ("Successfully authenticated " ++ sanitizedName ++
              " session #" ++ toString sessionId ++ "."),
           some (rows ++ [recordEntryRow sessionId version sectionName "SessionStart"
                   time (JsVal.obj [("setup", JsVal.str setupId)])]))

/-- The cached SessionInfo object (source typedef at line 27). -/
structure SessionInfo where
  table : String
  id : Int
  version : String
  sectionName : String
  lastAccess : Int
  nextSequence : Int
deriving Repr, DecidableEq

/-- The sessions cache: an association list from session key to SessionInfo
(a JS object has at most one entry per key). -/
abbrev Registry := List (String × SessionInfo)

/-- sessions[key] lookup. -/
def lookupSession (reg : Registry) (key : String) : Option SessionInfo :=
  (reg.find? (fun kv => kv.1 = key)).map (fun kv => kv.2)

/-- In-place mutation of the session object stored under a key. -/
def updateSession (reg : Registry) (key : String) (f : SessionInfo → SessionInfo) :
    Registry :=
  reg.map (fun kv => if kv.1 = key then (kv.1, f kv.2) else kv)

/-- The do-while token-generation loop of lines 316-319, observed for a given
number of draws: gen enumerates the stream of short.generate() outputs,
inReg is the occupancy test sessions[key] !== undefined.  The result none
means the loop is still running after consuming fuel draws; it has no other
exit and no failure report. -/
def sessionKeyLoop (gen : Nat → String) (inReg : String → Bool) :
    Nat → Nat → Option String
  | _, 0 => none
  | start, fuel + 1 =>
    if inReg (gen start) then sessionKeyLoop gen inReg (start + 1) fuel
    else some (gen start)

/-- The token loop started at the first draw. -/
def genSessionKey (gen : Nat → String) (inReg : String → Bool) (fuel : Nat) :
    Option String :=
  sessionKeyLoop gen inReg 0 fuel

/-- The token loop never terminates however many draws it is given. -/
def tokenLoopDiverges (gen : Nat → String) (inReg : String → Bool) : Prop :=
  ∀ fuel, genSessionKey gen inReg fuel = none

/-- What an HTTP handler does with the response object (or fails to do). -/
inductive HttpResult where
  | sent (status : Nat) (body : String)
  | connected (sessionKey : String) (sessionIndex : Int) (message : String)
  | diverged
  | thrown (message : String)
deriving Repr, DecidableEq

/-- A parsed /connect request body; an absent field is undefined. -/
structure ConnectReq where
  userName : JsVal := .undefined
  secret : JsVal := .undefined
  version : JsVal := .undefined
  sectionField : JsVal := .undefined
  setupId : JsVal := .undefined
  timecode : JsVal := .undefined
deriving Repr

/-- A parsed /log request body; an absent field is undefined. -/
structure LogReq where
  sessionKey : JsVal := .undefined
  sequence : JsVal := .undefined
  timecode : JsVal := .undefined
  eventType : JsVal := .undefined
  sectionField : JsVal := .undefined
  data : JsVal := .undefined
deriving Repr

/-- The Invalid timestamp diagnostic of lines 304/363. -/
def invalidTimestampMsg (timecode : JsVal) : String :=
  "Invalid timestamp. " ++ jsTypeof timecode ++ " = " ++ jsValDisplay timecode

/-- Source tryConnect.  now is Date.now(); gen/fuel drive the token loop;
oc drives tryBeginSession's storage steps; db is the state of the table
named by the sanitized user name.  Returns the response action, the table
state, and the sessions cache. -/
def tryConnect (env : String → Option String) (parseStr : String → Option Int)
    (gen : Nat → String) (fuel : Nat) (now : Int) (oc : StepOutcomes)
    (db : TableState) (reg : Registry) (body : Option ConnectReq) :
    HttpResult × TableState × Registry :=
  match body with
  | none => (.sent 400 "Authentication message had no body.", db, reg)
  | some r =>
    if !isValidString r.userName then (.sent 400 "Invalid user name.", db, reg)
    else if !isValidString r.secret then (.sent 400 "Invalid secret key.", db, reg)
    else
      let sanitizedName := toTableName (jsTrim (strOf r.userName))
      if !isValidIdentifier sanitizedName then (.sent 400 "Invalid user name.", db, reg)
      else
        let secret := jsTrim (strOf r.secret)
        let version := textOrPlaceholder r.version
        let sectionV := textOrPlaceholder r.sectionField
        let setupId := textOrPlaceholder r.setupId
        let time := dateOrInvalid parseStr r.timecode
        -- Line 304: isNaN(time.valueOf) -- the uncalled method, not its value.
        if jsIsNaN (dateValueOfProp time) then
          (.sent 400 (invalidTimestampMsg r.timecode), db, reg)
        else
          match tryBeginSession env sanitizedName secret version sectionV time setupId db oc with
          | (.thrown m, db2) => (.thrown m, db2, reg)
          | (.result sessionId message, db2) =>
            if sessionId < 0 then (.sent 400 message, db2, reg)
            else
              match genSessionKey gen (fun k => (lookupSession reg k).isSome) fuel with
              | none => (.diverged, db2, reg)
              | some sessionKey =>
                (.connected sessionKey sessionId message, db2,
                 reg ++ [(sessionKey,
                   { table := sanitizedName, id := sessionId, version := version,
                     sectionName := sectionV, lastAccess := now, nextSequence := 0 })])

/-- The payload-normalization switch of lines 373-389: data starts as the
empty object; a string/number/boolean literal is wrapped as value, an array
as list, any other object (including null, since typeof null = "object" and
null is not an array) is used verbatim; all remaining typeof cases fall
through and keep the empty object. -/
def normalizeData (d : JsVal) : JsVal :=
  match jsTypeof d with
  | "string" => JsVal.obj [("value", d)]
  | "number" => JsVal.obj [("value", d)]
  | "boolean" => JsVal.obj [("value", d)]
  | "object" => if jsIsArray d then JsVal.obj [("list", d)] else d
  | _ => JsVal.obj []

/-- Source tryLogEvent.  now is Date.now(); writeOk is the outcome the
INSERT of recordEntry would have.  Returns the response action, the updated
sessions cache, and the list of rows written to storage. -/
def tryLogEvent (parseStr : String → Option Int) (now : Int) (writeOk : Bool)
    (reg : Registry) (body : Option LogReq) :
    HttpResult × Registry × List Row :=
  match body with
  | none => (.sent 400 "Log message had no body.", reg, [])
  | some r =>
    if !isValidString r.sessionKey then (.sent 400 "Invalid session key.", reg, [])
    else
      let key := jsTrim (strOf r.sessionKey)
      match lookupSession reg key with
      | none => (.sent 400 "Session key not found.", reg, [])
      | some session =>
        -- Line 352: found valid session - keep its access timestamp fresh,
        -- before any further validation.
        let reg1 := updateSession reg key (fun s => { s with lastAccess := now })
        if !isValidInteger r.sequence then (.sent 400 "Invalid sequence number.", reg1, [])
        else if numOf r.sequence < session.nextSequence then
          -- Silently accept duplicates of events already handled.
          (.sent 200 "", reg1, [])
        else
          let time := dateOrInvalid parseStr r.timecode
          -- Line 363: isNaN(time.valueOf) -- the uncalled method, not its value.
          if jsIsNaN (dateValueOfProp time) then
            (.sent 400 (invalidTimestampMsg r.timecode), reg1, [])
          else if !isValidString r.eventType then
            (.sent 400 "Invalid event type.", reg1, [])
          else
            let eventType := textOrPlaceholder r.eventType
            let sectionV := textOrPlaceholder r.sectionField
            let data := normalizeData r.data
            if writeOk then
              let row := recordEntryRow session.id session.version sectionV eventType time data
              let reg2 := updateSession reg1 key
                (fun s => { s with nextSequence := numOf r.sequence + 1 })
              (.sent 200 "", reg2, [row])
            else
              (.sent 500 ("Error logging " ++ eventType ++ " for " ++ session.table
                 ++ ": INSERT failed"), reg1, [])

/-- The purge interval: 30 minutes in milliseconds. -/
def SESSION_INTERVAL : Int := 30 * 60 * 1000

/-- Source cleanupOldSessions: delete every cached session whose lastAccess
is strictly older than now - SESSION_INTERVAL, counting deleted and
remaining entries. -/
def cleanupOldSessions (now : Int) (reg : Registry) : Registry × Nat × Nat :=
  let threshold := now - SESSION_INTERVAL
  (reg.filter (fun kv => !decide (kv.2.lastAccess < threshold)),
   (reg.filter (fun kv => decide (kv.2.lastAccess < threshold))).length,
   (reg.filter (fun kv => !decide (kv.2.lastAccess < threshold))).length)

/-- Serialized successful connects against one identifier, starting from an
absent table: iterate tryBeginSession with every external step succeeding,
collecting the assigned session indices in order. -/
def serialConnects (env : String → Option String)
    (sanitizedName userSecret version sectionName : String)
    (time : JsDate) (setupId : String) : Nat → TableState × List Int
  | 0 => (none, [])
  | n + 1 =>
    let prev := serialConnects env sanitizedName userSecret version sectionName time setupId n
    match tryBeginSession env sanitizedName userSecret version sectionName time setupId prev.1 {} with
    | (.result sid _, db2) => (db2, prev.2 ++ [sid])
    | (.thrown _, db2) => (db2, prev.2)

/-! ## Shared fixtures for concrete evaluations -/

/-- A date-string parser that parses nothing (never consulted by integer
timecodes). -/
def parseNone : String → Option Int := fun _ => none

/-- A credential environment holding one secret: USER_TEAMA = pw. -/
def env0 : String → Option String := fun k => if k = "USER_TEAMA" then some "pw" else none

/-- A token generator producing K0, K1, K2, ... -/
def genK : Nat → String := fun n => "K" ++ toString n

/-- The SessionStart row the first successful connect of teama writes. -/
def rowA : Row :=
  recordEntryRow 0 "v1" "Menu" "SessionStart" (some 0) (JsVal.obj [("setup", JsVal.str "cfg")])

/-! ## Helper lemmas -/

/-- Per-character action of the three sanitization passes. -/
def charNorm (c : Char) : Option Char :=
  let d := jsCharToLower c
  let e := if spaceOrHyphen d then '_' else d
  if strippedPunct e then none else some e

theorem toNat_ofNat_valid (n : Nat) (h : n < 55296) : (Char.ofNat n).toNat = n := by
  unfold Char.ofNat
  split
  · rfl
  · rename_i hnv
    exact absurd (Or.inl h) hnv

theorem jsCharToLower_idem (c : Char) : jsCharToLower (jsCharToLower c) = jsCharToLower c := by
  unfold jsCharToLower
  by_cases h : 65 ≤ c.toNat ∧ c.toNat ≤ 90
  · simp only [if_pos h]
    have hv : (Char.ofNat (c.toNat + 32)).toNat = c.toNat + 32 :=
      toNat_ofNat_valid _ (by omega)
    rw [if_neg (by omega)]
  · simp [h]

theorem toTableNameChars_eq_filterMap (cs : List Char) :
    toTableNameChars cs = cs.filterMap charNorm := by
  induction cs with
  | nil => rfl
  | cons c cs ih =>
    simp only [toTableNameChars, List.map_cons, List.filter_cons] at ih ⊢
    rw [List.filterMap_cons]
    by_cases hs : strippedPunct (if spaceOrHyphen (jsCharToLower c) then '_' else jsCharToLower c)
    · rw [show charNorm c = none from by unfold charNorm; simp [hs]]
      simpa [hs] using ih
    · rw [show charNorm c = some (if spaceOrHyphen (jsCharToLower c) then '_'
            else jsCharToLower c) from by unfold charNorm; simp [hs]]
      simpa [hs] using ih

/-- A character produced by the sanitizer passes through it unchanged. -/
theorem charNorm_fixed {c d : Char} (h : charNorm c = some d) : charNorm d = some d := by
  unfold charNorm at h
  by_cases h1 : spaceOrHyphen (jsCharToLower c)
  · simp only [if_pos h1] at h
    by_cases h2 : strippedPunct '_'
    · simp [h2] at h
    · simp [h2] at h
      subst h
      decide
  · simp only [if_neg h1] at h
    by_cases h2 : strippedPunct (jsCharToLower c)
    · simp [h2] at h
    · simp [h2] at h
      subst h
      simp only [charNorm, jsCharToLower_idem]
      simp [h1, h2]

theorem toTableNameChars_idem (cs : List Char) :
    toTableNameChars (toTableNameChars cs) = toTableNameChars cs := by
  rw [toTableNameChars_eq_filterMap, toTableNameChars_eq_filterMap,
    List.filterMap_filterMap]
  have hpt : (fun x => (charNorm x).bind charNorm) = charNorm := by
    funext x
    cases hx : charNorm x with
    | none => simp [hx]
    | some d => simp [hx, charNorm_fixed hx]
  rw [hpt]

theorem lookup_update (reg : Registry) (key : String) (f : SessionInfo → SessionInfo) :
    lookupSession (updateSession reg key f) key = (lookupSession reg key).map f := by
  induction reg with
  | nil => rfl
  | cons kv tl ih =>
    by_cases h : kv.1 = key
    · simp [lookupSession, updateSession, List.find?_cons, h]
    · simp only [lookupSession, updateSession, List.map_cons] at ih ⊢
      rw [if_neg h, List.find?_cons, List.find?_cons]
      have hd : (decide (kv.1 = key)) = false := by simp [h]
      rw [hd]
      exact ih

theorem length_filter_add_length_filter_not {α : Type} (p : α → Bool) (l : List α) :
    (l.filter p).length + (l.filter (fun a => !p a)).length = l.length := by
  induction l with
  | nil => rfl
  | cons a l ih => cases h : p a <;> simp [List.filter_cons, h] <;> omega

theorem sessionKeyLoop_none (gen : Nat → String) (inReg : String → Bool)
    (h : ∀ i, inReg (gen i) = true) :
    ∀ fuel start, sessionKeyLoop gen inReg start fuel = none := by
  intro fuel
  induction fuel with
  | zero => intro start; rfl
  | succ n ih =>
    intro start
    simp [sessionKeyLoop, h start, ih]

theorem sessionKeyLoop_some (gen : Nat → String) (inReg : String → Bool) :
    ∀ fuel start, (∃ j, j < fuel ∧ inReg (gen (start + j)) = false) →
      ∃ k, sessionKeyLoop gen inReg start fuel = some k ∧ inReg k = false := by
  intro fuel
  induction fuel with
  | zero =>
    intro start h
    obtain ⟨j, hj, _⟩ := h
    omega
  | succ n ih =>
    intro start h
    cases hin : inReg (gen start) with
    | false => exact ⟨gen start, by simp [sessionKeyLoop, hin], hin⟩
    | true =>
      obtain ⟨j, hj, hfresh⟩ := h
      cases j with
      | zero => rw [Nat.add_zero] at hfresh; rw [hin] at hfresh; cases hfresh
      | succ j =>
        obtain ⟨k, hk, hkf⟩ := ih (start + 1) ⟨j, by omega, by rw [show start + 1 + j = start + (j + 1) by omega]; exact hfresh⟩
        exact ⟨k, by simp [sessionKeyLoop, hin, hk], hkf⟩

theorem sqlMaxSession_eq_none {rows : List Row} (h : sqlMaxSession rows = none) :
    rows = [] := by
  cases rows with
  | nil => rfl
  | cons a tl =>
    exfalso
    simp only [sqlMaxSession] at h
    cases htl : sqlMaxSession tl <;> rw [htl] at h <;> simp at h

theorem sqlMaxSession_append_some (r : Row) :
    ∀ {rows : List Row} {m : Int}, sqlMaxSession rows = some m →
      sqlMaxSession (rows ++ [r]) = some (max m r.session) := by
  intro rows
  induction rows with
  | nil => intro m h; simp [sqlMaxSession] at h
  | cons a tl ih =>
    intro m h
    rw [List.cons_append]
    cases htl : sqlMaxSession tl with
    | none =>
      have htl0 : tl = [] := sqlMaxSession_eq_none htl
      subst htl0
      simp only [sqlMaxSession, htl] at h ⊢
      simp at h
      subst h
      rfl
    | some m2 =>
      have hm : m = max a.session m2 := by
        simp only [sqlMaxSession, htl] at h
        simp at h
        omega
      have hih := ih htl
      simp only [sqlMaxSession, hih]
      rw [hm, max_assoc]

/-- The SessionStart payload recorded on connect. -/
def setupPayload (setupId : String) : JsVal :=
  JsVal.obj [("setup", JsVal.str setupId)]

theorem tryBeginSession_absent (env : String → Option String)
    (name secret version sec : String) (time : JsDate) (setup : String)
    (hauth : authenticate env name secret = true) :
    tryBeginSession env name secret version sec time setup none {} =
      (.result 0 ("Successfully authenticated and created new database table for "
          ++ name ++ ". Starting with session #0."),
       some [recordEntryRow 0 version sec "SessionStart" time (setupPayload setup)]) := by
  simp [tryBeginSession, hauth, setupPayload]

theorem tryBeginSession_present (env : String → Option String)
    (name secret version sec : String) (time : JsDate) (setup : String)
    (rows : List Row) (hauth : authenticate env name secret = true) :
    tryBeginSession env name secret version sec time setup (some rows) {} =
      (.result ((sqlMaxSession rows).getD 0 + 1)
         ("Successfully authenticated " ++ name ++ " session #"
            ++ toString ((sqlMaxSession rows).getD 0 + 1) ++ "."),
       some (rows ++ [recordEntryRow ((sqlMaxSession rows).getD 0 + 1) version sec
              "SessionStart" time (setupPayload setup)])) := by
  simp only [tryBeginSession, hauth, Bool.not_true, Bool.false_eq_true, if_false, setupPayload]
  cases h : sqlMaxSession rows <;> simp [h]

/-- The list 0, 1, ..., n-1 as integers. -/
def natsAsInts (n : Nat) : List Int :=
  (List.range n).map (fun k => (k : Int))

theorem natsAsInts_succ (n : Nat) : natsAsInts (n + 1) = natsAsInts n ++ [(n : Int)] := by
  simp [natsAsInts, List.range_succ]

theorem serialConnects_spec (env : String → Option String)
    (name secret version sec : String) (time : JsDate) (setup : String)
    (hauth : authenticate env name secret = true) :
    ∀ n, (serialConnects env name secret version sec time setup n).2
           = natsAsInts n ∧
         ((n = 0 ∧ (serialConnects env name secret version sec time setup n).1 = none) ∨
          (∃ rows, (serialConnects env name secret version sec time setup n).1 = some rows ∧
            sqlMaxSession rows = some ((n : Int) - 1))) := by
  intro n
  induction n with
  | zero => exact ⟨rfl, Or.inl ⟨rfl, rfl⟩⟩
  | succ n ih =>
    obtain ⟨hids, hdb⟩ := ih
    have hunfold : serialConnects env name secret version sec time setup (n + 1) =
        (match tryBeginSession env name secret version sec time setup
            (serialConnects env name secret version sec time setup n).1 {} with
         | (.result sid _, db2) =>
            (db2, (serialConnects env name secret version sec time setup n).2 ++ [sid])
         | (.thrown _, db2) =>
            (db2, (serialConnects env name secret version sec time setup n).2)) := rfl
    rcases hdb with ⟨hn0, hnone⟩ | ⟨rows, hsome, hmax⟩
    · subst hn0
      rw [hnone, hids, tryBeginSession_absent env name secret version sec time setup hauth]
        at hunfold
      constructor
      · rw [hunfold]
        rfl
      · refine Or.inr
          ⟨[recordEntryRow 0 version sec "SessionStart" time (setupPayload setup)], ?_, ?_⟩
        · rw [hunfold]
        · simp [sqlMaxSession, recordEntryRow]
    · rw [hsome, hids,
        tryBeginSession_present env name secret version sec time setup rows hauth, hmax]
        at hunfold
      have hsid : (Option.getD (some ((n : Int) - 1)) 0) + 1 = (n : Int) := by
        simp [Option.getD]
      rw [hsid] at hunfold
      constructor
      · rw [hunfold, natsAsInts_succ]
      · refine Or.inr ⟨_, by rw [hunfold], ?_⟩
        have hsess : (recordEntryRow (n : Int) version sec
            "SessionStart" time (setupPayload setup)).session = (n : Int) := rfl
        rw [sqlMaxSession_append_some _ hmax, hsess]
        have : max ((n : Int) - 1) (n : Int) = ((n : Int) + 1) - 1 := by
          rw [max_eq_right (by omega)]; omega
        rw [this]
        norm_cast

/-- One of the five storage steps the transaction executes on this table
state fails (steps that the control flow does not reach do not count). -/
def stepFailed (oc : StepOutcomes) (db : TableState) : Bool :=
  !oc.tableCheckOk ||
    (match db with
     | none => !oc.createOk || !oc.insertOk || !oc.commitOk
     | some _ => !oc.maxOk || !oc.insertOk || !oc.commitOk)

/-- Every rejection path of tryLogEvent past session resolution leaves the
cache exactly at the lastAccess refresh of line 352 and writes nothing;
since line 363 tests isNaN on the uncalled valueOf method, which always
holds, the write path is unreachable and this covers every resolved
request. -/
theorem tryLogEvent_resolved (parseStr : String → Option Int) (now : Int) (writeOk : Bool)
    (reg : Registry) (k : String) (r : LogReq) (s : SessionInfo)
    (hkey : r.sessionKey = .str k) (hk : k ≠ "")
    (hlook : lookupSession reg (jsTrim k) = some s) :
    ∃ res, tryLogEvent parseStr now writeOk reg (some r) =
      (res, updateSession reg (jsTrim k) (fun i => { i with lastAccess := now }), []) := by
  have hvs : isValidString r.sessionKey = true := by rw [hkey]; simp [isValidString, hk]
  have hstr : strOf r.sessionKey = k := by rw [hkey]; rfl
  cases hvi : isValidInteger r.sequence with
  | false =>
    refine ⟨.sent 400 "Invalid sequence number.", ?_⟩
    simp [tryLogEvent, hvs, hstr, hlook, hvi]
  | true =>
    by_cases hdup : numOf r.sequence < s.nextSequence
    · refine ⟨.sent 200 "", ?_⟩
      simp [tryLogEvent, hvs, hstr, hlook, hvi, hdup]
    · refine ⟨.sent 400 (invalidTimestampMsg r.timecode), ?_⟩
      simp [tryLogEvent, hvs, hstr, hlook, hvi, hdup, dateValueOfProp, jsIsNaN]

/-- The duplicate branch of tryLogEvent: an already-integer sequence below
nextSequence answers success with no write and only the lastAccess
refresh. -/
theorem tryLogEvent_duplicate (parseStr : String → Option Int) (now : Int) (writeOk : Bool)
    (reg : Registry) (k : String) (r : LogReq) (s : SessionInfo) (q : Int)
    (hkey : r.sessionKey = .str k) (hk : k ≠ "")
    (hlook : lookupSession reg (jsTrim k) = some s)
    (hseq : r.sequence = .num q) (hlt : q < s.nextSequence) :
    tryLogEvent parseStr now writeOk reg (some r) =
      (.sent 200 "", updateSession reg (jsTrim k) (fun i => { i with lastAccess := now }), []) := by
  have hvs : isValidString r.sessionKey = true := by rw [hkey]; simp [isValidString, hk]
  have hstr : strOf r.sessionKey = k := by rw [hkey]; rfl
  have hvi : isValidInteger r.sequence = true := by rw [hseq]; rfl
  have hnum : numOf r.sequence = q := by rw [hseq]; rfl
  simp [tryLogEvent, hvs, hstr, hlook, hvi, hnum, hlt]

/-! ## Concrete fixtures for the claim evaluations -/

/-- A cached session for the log-request evaluations. -/
def sessK : SessionInfo :=
  { table := "teama", id := 0, version := "v1", sectionName := "Menu",
    lastAccess := 100, nextSequence := 0 }

/-- A one-session cache holding sessK under KEY1. -/
def regK : Registry := [("KEY1", sessK)]

/-- A cached session for the C5 evaluation. -/
def sess5 : SessionInfo :=
  { table := "teamb", id := 2, version := "v2", sectionName := "Level1",
    lastAccess := 111, nextSequence := 0 }

/-- A one-session cache holding sess5 under KEY5. -/
def reg5 : Registry := [("KEY5", sess5)]

/-- A cached session for the C7 evaluation. -/
def sess7 : SessionInfo :=
  { table := "teamc", id := 1, version := "v3", sectionName := "Level2",
    lastAccess := 50, nextSequence := 0 }

/-- A one-session cache holding sess7 under KEY7. -/
def reg7 : Registry := [("KEY7", sess7)]

/-- A cached session with a positive nextSequence, for the duplicate path. -/
def sessW : SessionInfo :=
  { table := "teamw", id := 0, version := "v", sectionName := "m",
    lastAccess := 10, nextSequence := 5 }

/-- A one-session cache holding sessW under KEY2. -/
def regW : Registry := [("KEY2", sessW)]

/-- A duplicate log request: sequence 3 against sessW's nextSequence 5. -/
def reqW : LogReq := { sessionKey := .str "KEY2", sequence := .num 3 }

/-- A log request with a non-integer sequence, for a rejected request. -/
def reqX : LogReq := { sessionKey := .str "KEY1", sequence := .str "x" }

/-- Outcomes in which only the SessionStart INSERT fails. -/
def ocInsertFail : StepOutcomes := { insertOk := false }

/-- A stale session, last touched long before the sweep threshold. -/
def sOld : SessionInfo :=
  { table := "t", id := 0, version := "v", sectionName := "m",
    lastAccess := 100, nextSequence := 0 }

/-- A fresh session, touched after the sweep threshold. -/
def sFresh : SessionInfo :=
  { table := "t", id := 1, version := "v", sectionName := "m",
    lastAccess := 1999999, nextSequence := 0 }

/-- A two-session cache with one stale and one fresh entry. -/
def regC : Registry := [("A", sOld), ("B", sFresh)]

/-! ## Claims -/

/-- C1 (code_bug evaluation): the claim says the timestamp check rejects a
connect or log request if and only if the timecode does not parse to a
valid instant.  In the code, lines 304 and 363 evaluate isNaN(time.valueOf)
on the uncalled Date.prototype.valueOf method, a function object that
always coerces to NaN, so the check rejects every request.  Here the
integer timecodes 0 and 7 parse to valid Dates, yet both a fully valid
connect request and a fully valid log request are rejected with the
Invalid timestamp diagnostic, and neither storage nor the cache changes. -/
theorem C1_timestamp_check_rejects_valid_timecode :
    dateOrInvalid parseNone (JsVal.num 0) = some 0 ∧
    dateOrInvalid parseNone (JsVal.num 7) = some 7 ∧
    tryConnect env0 parseNone genK 3 500 {} none []
        (some { userName := .str "TeamA", secret := .str "pw", timecode := .num 0 })
      = (.sent 400 "Invalid timestamp. number = 0", none, []) ∧
    (tryLogEvent parseNone 700 true regK
        (some { sessionKey := .str "KEY1", sequence := .num 0, timecode := .num 7,
                eventType := .str "LevelStart" })).1
      = .sent 400 "Invalid timestamp. number = 7" :=
  ⟨rfl, rfl, rfl, rfl⟩

/-- C2 (counterexample): the claim says sessionIndex is 0 when the table is
absent OR EMPTY.  On a present-but-empty table, MAX(session) is NULL,
isValidInteger(null) is false, so sessionId stays 0 and the post-increment
yields 1, not 0. -/
theorem C2_empty_table_counterexample :
    (tryBeginSession env0 "teama" "pw" "v1" "Menu" (some 0) "cfg" (some []) {}).1
      = BeginOutcome.result 1 "Successfully authenticated teama session #1." ∧
    (1 : Int) ≠ 0 :=
  ⟨rfl, by decide⟩

/-- C2 (amended): on a successful run of tryBeginSession, sessionIndex is 0
when the table is absent; when the table is present it is MAX(session) + 1,
where a NULL MAX (empty table) counts as 0, so an empty table yields 1; and
serialized successful connects from an absent table assign 0, 1, 2, ... in
order, increasing by exactly 1 with no reuse and no gaps. -/
theorem C2_sessionIndex_assignment (env : String → Option String)
    (name secret version sec : String) (time : JsDate) (setup : String)
    (hauth : authenticate env name secret = true) :
    (∃ msg, (tryBeginSession env name secret version sec time setup none {}).1
       = .result 0 msg) ∧
    (∀ rows, ∃ msg, (tryBeginSession env name secret version sec time setup (some rows) {}).1
       = .result ((sqlMaxSession rows).getD 0 + 1) msg) ∧
    (∀ n, (serialConnects env name secret version sec time setup n).2
       = natsAsInts n) := by
  refine ⟨?_, fun rows => ?_, fun n =>
    (serialConnects_spec env name secret version sec time setup hauth n).1⟩
  · rw [tryBeginSession_absent env name secret version sec time setup hauth]
    exact ⟨_, rfl⟩
  · rw [tryBeginSession_present env name secret version sec time setup rows hauth]
    exact ⟨_, rfl⟩

/-- C2 witness: the amended theorem applied to the concrete environment
env0; three serialized connects assign exactly 0, 1, 2. -/
theorem C2_sessionIndex_assignment_witness :
    authenticate env0 "teama" "pw" = true ∧
    (serialConnects env0 "teama" "pw" "v1" "Menu" (some 0) "cfg" 3).2 = [0, 1, 2] := by
  refine ⟨by decide, ?_⟩
  have h := (C2_sessionIndex_assignment env0 "teama" "pw" "v1" "Menu" (some 0) "cfg"
    (by decide)).2.2 3
  rw [h]
  rfl

/-- C3 (confirmed): when authentication passed and the client was acquired,
a failure at any executed storage step of tryBeginSession (table-existence
check, table creation, max-session query, SessionStart insert, or commit)
leaves the durable table state exactly as it was (nothing is committed, so
no table creation or session-index assignment is partially applied) and the
call returns the typed failure result sessionId = -1 carrying the
diagnostic session-start error message, rather than throwing. -/
theorem C3_failure_rolls_back_and_reports (env : String → Option String)
    (name secret version sec : String) (time : JsDate) (setup : String)
    (db : TableState) (oc : StepOutcomes)
    (hauth : authenticate env name secret = true)
    (hconn : oc.connectOk = true)
    (hfail : stepFailed oc db = true) :
    ∃ stack, tryBeginSession env name secret version sec time setup db oc
      = (.result (-1) (sessionStartErrMsg name stack), db) := by
  cases htc : oc.tableCheckOk with
  | false => exact ⟨"table existence check failed",
      by simp [tryBeginSession, hauth, hconn, htc]⟩
  | true =>
    cases db with
    | none =>
      cases hcr : oc.createOk with
      | false => exact ⟨"CREATE TABLE failed",
          by simp [tryBeginSession, hauth, hconn, htc, hcr]⟩
      | true =>
        cases hins : oc.insertOk with
        | false => exact ⟨"INSERT failed",
            by simp [tryBeginSession, hauth, hconn, htc, hcr, hins]⟩
        | true =>
          cases hcm : oc.commitOk with
          | false => exact ⟨"COMMIT failed",
              by simp [tryBeginSession, hauth, hconn, htc, hcr, hins, hcm]⟩
          | true => simp [stepFailed, htc, hcr, hins, hcm] at hfail
    | some rows =>
      cases hmx : oc.maxOk with
      | false => exact ⟨"MAX(session) query failed",
          by simp [tryBeginSession, hauth, hconn, htc, hmx]⟩
      | true =>
        cases hins : oc.insertOk with
        | false => exact ⟨"INSERT failed",
            by simp [tryBeginSession, hauth, hconn, htc, hmx, hins]⟩
        | true =>
          cases hcm : oc.commitOk with
          | false => exact ⟨"COMMIT failed",
              by simp [tryBeginSession, hauth, hconn, htc, hmx, hins, hcm]⟩
          | true => simp [stepFailed, htc, hmx, hins, hcm] at hfail

/-- C3 witness: a failing SessionStart insert against an existing one-row
table leaves the table unchanged and yields the typed diagnostic result. -/
theorem C3_failure_rolls_back_and_reports_witness :
    authenticate env0 "teama" "pw" = true ∧ ocInsertFail.connectOk = true ∧
    stepFailed ocInsertFail (some [rowA]) = true ∧
    ∃ stack, tryBeginSession env0 "teama" "pw" "v1" "Menu" (some 0) "cfg"
        (some [rowA]) ocInsertFail
      = (.result (-1) (sessionStartErrMsg "teama" stack), some [rowA]) :=
  ⟨by decide, rfl, rfl,
   C3_failure_rolls_back_and_reports env0 "teama" "pw" "v1" "Menu" (some 0) "cfg"
     (some [rowA]) ocInsertFail (by decide) rfl rfl⟩

/-- C4 (confirmed): a log request on a resolved session whose integer
sequence is strictly below the session's nextSequence returns success with
no storage write and an unchanged nextSequence (only lastAccess is
refreshed), and a second call with the same request is again a success with
no write, so two calls cause zero storage writes here. -/
theorem C4_duplicate_sequence_noop
    (parseStr : String → Option Int) (now now2 : Int) (writeOk writeOk2 : Bool)
    (reg : Registry) (k : String) (r : LogReq) (s : SessionInfo) (q : Int)
    (hkey : r.sessionKey = .str k) (hk : k ≠ "")
    (hlook : lookupSession reg (jsTrim k) = some s)
    (hseq : r.sequence = .num q) (hlt : q < s.nextSequence) :
    (tryLogEvent parseStr now writeOk reg (some r)).1 = .sent 200 "" ∧
    (tryLogEvent parseStr now writeOk reg (some r)).2.2 = [] ∧
    lookupSession (tryLogEvent parseStr now writeOk reg (some r)).2.1 (jsTrim k)
      = some { s with lastAccess := now } ∧
    (tryLogEvent parseStr now2 writeOk2
        (tryLogEvent parseStr now writeOk reg (some r)).2.1 (some r)).1 = .sent 200 "" ∧
    (tryLogEvent parseStr now2 writeOk2
        (tryLogEvent parseStr now writeOk reg (some r)).2.1 (some r)).2.2 = [] := by
  have h1 := tryLogEvent_duplicate parseStr now writeOk reg k r s q hkey hk hlook hseq hlt
  have hlook1 : lookupSession (tryLogEvent parseStr now writeOk reg (some r)).2.1 (jsTrim k)
      = some { s with lastAccess := now } := by
    have hu := lookup_update reg (jsTrim k) (fun i => { i with lastAccess := now })
    rw [hlook] at hu
    rw [h1]
    exact hu
  have h2 := tryLogEvent_duplicate parseStr now2 writeOk2
    (tryLogEvent parseStr now writeOk reg (some r)).2.1 k r
    { s with lastAccess := now } q hkey hk hlook1 hseq hlt
  exact ⟨by rw [h1], by rw [h1], hlook1, by rw [h2], by rw [h2]⟩

/-- C4 witness: the duplicate theorem at a concrete cache and request,
sequence 3 below nextSequence 5. -/
theorem C4_duplicate_sequence_noop_witness :
    (tryLogEvent parseNone 900 true regW (some reqW)).1 = .sent 200 "" ∧
    (tryLogEvent parseNone 900 true regW (some reqW)).2.2 = [] ∧
    (tryLogEvent parseNone 901 false
       (tryLogEvent parseNone 900 true regW (some reqW)).2.1 (some reqW)).1
      = .sent 200 "" := by
  have h := C4_duplicate_sequence_noop parseNone 900 901 true false regW "KEY2" reqW sessW 3
    rfl (by decide) rfl rfl (by decide)
  exact ⟨h.1, h.2.1, h.2.2.2.1⟩

/-- C5 (code_bug evaluation): the claim says nextSequence advances to
sequence + 1 after a successful storage write and that a write failure
yields StorageError.  In the code the write is unreachable: this fully
valid log event (resolved session, integer sequence 0 equal to
nextSequence, integer timecode, event type, healthy store writeOk = true)
is rejected by the always-true timestamp check of line 363, no row is
written, and nextSequence stays 0 instead of advancing to 1. -/
theorem C5_write_path_unreachable :
    tryLogEvent parseNone 222 true reg5
        (some { sessionKey := .str "KEY5", sequence := .num 0, timecode := .num 0,
                eventType := .str "LevelEnd", data := .obj [("hp", .num 10)] })
      = (.sent 400 "Invalid timestamp. number = 0",
         [("KEY5", { table := "teamb", id := 2, version := "v2", sectionName := "Level1",
                     lastAccess := 222, nextSequence := 0 })],
         []) :=
  rfl

/-- C6 (counterexample): the claim says token generation is a bounded
retry whose exhaustion is a fatal, reported condition.  The do-while of
lines 316-319 has no bound and no failure report: against a registry
already holding the only key the generator produces, the loop is still
running after any number of draws. -/
theorem C6_token_retry_unbounded_counterexample :
    tokenLoopDiverges (fun _ => "K0") (fun s => s == "K0") := by
  intro fuel
  exact sessionKeyLoop_none (fun _ => "K0") (fun s => s == "K0") (fun _ => rfl) fuel 0

/-- C6 (amended): the token loop is an unbounded retry that terminates as
soon as the generator yields a key not already present, returning such a
fresh key; when the generator never yields a fresh key it loops forever
with no fatal report. -/
theorem C6_token_retry_first_fresh (gen : Nat → String) (inReg : String → Bool)
    (i : Nat) (hfresh : inReg (gen i) = false) :
    ∃ k, genSessionKey gen inReg (i + 1) = some k ∧ inReg k = false :=
  sessionKeyLoop_some gen inReg (i + 1) 0 ⟨i, by omega, by rw [Nat.zero_add]; exact hfresh⟩

/-- C6 witness: with a generator whose second draw is fresh, the loop
returns a key not in the registry within two draws. -/
theorem C6_token_retry_first_fresh_witness :
    (fun s => s == "T0") ((fun n => "T" ++ toString n) 1) = false ∧
    ∃ k, genSessionKey (fun n => "T" ++ toString n) (fun s => s == "T0") 2 = some k ∧
      (fun s => s == "T0") k = false :=
  ⟨by decide,
   C6_token_retry_first_fresh (fun n => "T" ++ toString n) (fun s => s == "T0") 1 (by decide)⟩

/-- C7 (code_bug evaluation): the claim describes the persisted payload of
every accepted log event.  The normalization switch itself maps shapes as
described (scalars wrapped as value, arrays as list, keyed objects
verbatim, absent data to the empty object), but no log event is ever
accepted: the spec's own example record(data = 5) is rejected by the
always-true timestamp check of line 363 and persists nothing.  Moreover
null, having typeof object and not being an array, is kept verbatim, so the
payload WOULD be null for data = null even if the check were fixed. -/
theorem C7_payload_never_persisted :
    normalizeData (JsVal.num 5) = JsVal.obj [("value", JsVal.num 5)] ∧
    normalizeData (JsVal.str "a") = JsVal.obj [("value", JsVal.str "a")] ∧
    normalizeData (JsVal.bool true) = JsVal.obj [("value", JsVal.bool true)] ∧
    normalizeData (JsVal.arr [JsVal.num 1, JsVal.num 2])
      = JsVal.obj [("list", JsVal.arr [JsVal.num 1, JsVal.num 2])] ∧
    normalizeData (JsVal.obj [("a", JsVal.num 1)]) = JsVal.obj [("a", JsVal.num 1)] ∧
    normalizeData JsVal.undefined = JsVal.obj [] ∧
    normalizeData JsVal.nullV = JsVal.nullV ∧
    tryLogEvent parseNone 333 true reg7
        (some { sessionKey := .str "KEY7", sequence := .num 0, timecode := .num 9,
                eventType := .str "ItemPickup", data := .num 5 })
      = (.sent 400 "Invalid timestamp. number = 9",
         [("KEY7", { table := "teamc", id := 1, version := "v3", sectionName := "Level2",
                     lastAccess := 333, nextSequence := 0 })],
         []) :=
  ⟨rfl, rfl, rfl, rfl, rfl, rfl, rfl, rfl⟩

/-- C8 (confirmed): after a sweep at time now with the fixed idle threshold
SESSION_INTERVAL, every cached session entry with lastAccess strictly below
now - SESSION_INTERVAL is absent from the surviving cache, every entry with
lastAccess at or above it is still present, and the reported deleted and
remaining counts sum to the number of entries before the sweep. -/
theorem C8_sweep_partition (now : Int) (reg : Registry) :
    (∀ k s, (k, s) ∈ reg → s.lastAccess < now - SESSION_INTERVAL →
        (k, s) ∉ (cleanupOldSessions now reg).1) ∧
    (∀ k s, (k, s) ∈ reg → now - SESSION_INTERVAL ≤ s.lastAccess →
        (k, s) ∈ (cleanupOldSessions now reg).1) ∧
    (cleanupOldSessions now reg).2.1 + (cleanupOldSessions now reg).2.2 = reg.length := by
  refine ⟨?_, ?_, ?_⟩
  · intro k s hmem hold hin
    simp only [cleanupOldSessions] at hin
    have h2 := (List.mem_filter.mp hin).2
    simp at h2
    omega
  · intro k s hmem hfresh
    simp only [cleanupOldSessions]
    refine List.mem_filter.mpr ⟨hmem, ?_⟩
    simp
    omega
  · simp only [cleanupOldSessions]
    exact length_filter_add_length_filter_not _ reg

/-- C8 witness: at now = 2000000 the stale entry (lastAccess 100, below the
threshold 200000) is removed, the fresh entry survives, and the counts sum
to the original size 2. -/
theorem C8_sweep_partition_witness :
    ("A", sOld) ∉ (cleanupOldSessions 2000000 regC).1 ∧
    ("B", sFresh) ∈ (cleanupOldSessions 2000000 regC).1 ∧
    (cleanupOldSessions 2000000 regC).2.1 + (cleanupOldSessions 2000000 regC).2.2
      = regC.length :=
  ⟨(C8_sweep_partition 2000000 regC).1 "A" sOld (by decide) (by decide),
   (C8_sweep_partition 2000000 regC).2.1 "B" sFresh (by decide) (by decide),
   (C8_sweep_partition 2000000 regC).2.2⟩

/-- C9 (confirmed): the identifier sanitizer toTableName (lowercase, then
whitespace/hyphen to underscore, then strip the fixed punctuation set) is
idempotent. -/
theorem C9_sanitize_idempotent (x : String) :
    toTableName (toTableName x) = toTableName x := by
  unfold toTableName
  show String.mk (toTableNameChars (String.mk (toTableNameChars x.toList)).toList) = _
  rw [show (String.mk (toTableNameChars x.toList)).toList = toTableNameChars x.toList from rfl]
  rw [toTableNameChars_idem]

/-- C10 (confirmed): on every log request whose key resolves to a cached
session, lastAccess is set to the current time before any further
validation — whatever the outcome, the cached session's lastAccess equals
now afterwards — and on any rejected request (non-200 response) the cache
equals exactly the lastAccess refresh of the original cache (no other
session field, including nextSequence, is modified) and nothing is
written to storage. -/
theorem C10_lastAccess_refresh_frame (parseStr : String → Option Int) (now : Int)
    (writeOk : Bool) (reg : Registry) (k : String) (r : LogReq) (s : SessionInfo)
    (hkey : r.sessionKey = .str k) (hk : k ≠ "")
    (hlook : lookupSession reg (jsTrim k) = some s) :
    ((lookupSession (tryLogEvent parseStr now writeOk reg (some r)).2.1 (jsTrim k)).map
        (fun i => i.lastAccess) = some now) ∧
    (∀ st b, (tryLogEvent parseStr now writeOk reg (some r)).1 = .sent st b → st ≠ 200 →
      (tryLogEvent parseStr now writeOk reg (some r)).2.1
        = updateSession reg (jsTrim k) (fun i => { i with lastAccess := now }) ∧
      (tryLogEvent parseStr now writeOk reg (some r)).2.2 = []) := by
  obtain ⟨res, heq⟩ := tryLogEvent_resolved parseStr now writeOk reg k r s hkey hk hlook
  constructor
  · have hu := lookup_update reg (jsTrim k) (fun i => { i with lastAccess := now })
    rw [hlook] at hu
    rw [heq]
    show (lookupSession (updateSession reg (jsTrim k)
        (fun i => { i with lastAccess := now })) (jsTrim k)).map (fun i => i.lastAccess)
      = some now
    rw [hu]
    rfl
  · intro st b _ _
    rw [heq]
    exact ⟨rfl, rfl⟩

/-- C10 witness: a request rejected for a non-integer sequence still
refreshes lastAccess to now = 800, the cache differs from the original only
in that refresh, and nothing is written. -/
theorem C10_lastAccess_refresh_frame_witness :
    ((lookupSession (tryLogEvent parseNone 800 true regK (some reqX)).2.1
        (jsTrim "KEY1")).map (fun i => i.lastAccess) = some 800) ∧
    (tryLogEvent parseNone 800 true regK (some reqX)).2.1
      = updateSession regK (jsTrim "KEY1") (fun i => { i with lastAccess := 800 }) ∧
    (tryLogEvent parseNone 800 true regK (some reqX)).2.2 = [] := by
  have h := C10_lastAccess_refresh_frame parseNone 800 true regK "KEY1" reqX sessK
    rfl (by decide) rfl
  exact ⟨h.1, (h.2 400 "Invalid sequence number." rfl (by decide)).1,
    (h.2 400 "Invalid sequence number." rfl (by decide)).2⟩

end DdTelemetry
